import Mathlib

/-!
Verification of the timelapse pipeline (src/timelapse.py).

The script is a linear three-step pipeline: obtain an access token from the
IMOU cloud API, fetch a camera snapshot, and upload the image to Google
Drive.  We embed the pure decision logic of each step shallowly:

* JSON responses are modelled by an inductive `Json` type; Python dict
  operations (`get`, `in`, subscription, `len`) are modelled by functions
  that raise the corresponding Python errors through an `Except`.
* Network calls are abstracted as function parameters (the HTTP GET of the
  image is a function `String → Nat → HttpGetResult`, taking the URL and
  the timeout value actually passed by the code).
* `hashlib.md5(...).hexdigest()` is abstracted as a parameter
  `md5hex : String → String`; the signature claims only concern the string
  that is hashed.
* The filesystem effect of the upload step (the temporary file under /tmp)
  is modelled by returning the final state of that file alongside the
  result.
-/

/-- JSON values, the shape of the parsed vendor-API responses. -/
inductive Json where
  | null
  | str (s : String)
  | num (n : Int)
  | arr (elems : List Json)
  | obj (fields : List (String × Json))

/-- Errors a step can raise.  `exn msg` is a Python `Exception(msg)` raised
explicitly by the script; the others model errors raised by the Python
runtime or the HTTP library on the corresponding operations. -/
inductive StepError where
  | exn (msg : String)
  | attrError
  | typeError
  | keyError
  | indexError
  | timeoutError
  | httpStatusError (status : Nat)
  | requestError
  | credsError
  | uploadError
deriving DecidableEq, Repr

/-- Python `dict.get(k)`: the value bound to the first occurrence of the
key, or `none` when absent. -/
def pyDictGet (kvs : List (String × Json)) (k : String) : Option Json :=
  match kvs.find? (fun kv => kv.1 == k) with
  | some kv => some kv.2
  | none => none

/-- Python truthiness of a JSON value (`None`, `""`, `0`, `[]`, `{}` are
falsy, everything else truthy). -/
def pyTruthy : Json → Bool
  | Json.null => false
  | Json.str s => !(s == "")
  | Json.num n => !(n == 0)
  | Json.arr xs => !xs.isEmpty
  | Json.obj kvs => !kvs.isEmpty

/-- Whether `v` is a substring of `hay` (Python `v in hay` on strings). -/
def strContainsSub (hay needle : String) : Bool :=
  hay.data.tails.any (fun t => needle.data.isPrefixOf t)

/-- Python `k in j`: key membership for dicts, substring test for strings,
element membership for lists; `TypeError` otherwise. -/
def pyContains (j : Json) (k : String) : Except StepError Bool :=
  match j with
  | Json.obj kvs => Except.ok (kvs.any (fun kv => kv.1 == k))
  | Json.str s => Except.ok (strContainsSub s k)
  | Json.arr xs =>
      Except.ok (xs.any (fun x => match x with
        | Json.str s => s == k
        | _ => false))
  | _ => Except.error StepError.typeError

/-- Python `j[k]` with a string key: dict lookup (raising `KeyError` when
absent), `TypeError` for every non-dict value. -/
def pySubscr (j : Json) (k : String) : Except StepError Json :=
  match j with
  | Json.obj kvs =>
      match pyDictGet kvs k with
      | some v => Except.ok v
      | none => Except.error StepError.keyError
  | _ => Except.error StepError.typeError

/-- Python `len(j)`: length of strings, lists and dicts, `TypeError`
otherwise. -/
def pyLen (j : Json) : Except StepError Nat :=
  match j with
  | Json.str s => Except.ok s.length
  | Json.arr xs => Except.ok xs.length
  | Json.obj kvs => Except.ok kvs.length
  | _ => Except.error StepError.typeError

/-- Python `j[0]`: first element of a list (or one-character string of a
string), `IndexError` when empty, `KeyError` for dicts (whose keys here are
strings), `TypeError` otherwise. -/
def pyIndex0 (j : Json) : Except StepError Json :=
  match j with
  | Json.arr xs =>
      match xs with
      | [] => Except.error StepError.indexError
      | x :: _ => Except.ok x
  | Json.str s =>
      match s.data with
      | [] => Except.error StepError.indexError
      | c :: _ => Except.ok (Json.str (String.mk [c]))
  | Json.obj _ => Except.error StepError.keyError
  | _ => Except.error StepError.typeError

mutual
/-- Rendering of a JSON value, modelling the Python f-string interpolation
of the parsed response used in the error messages of the script. -/
def pyRepr : Json → String
  | Json.null => "None"
  | Json.str s => "\x27" ++ s ++ "\x27"
  | Json.num n => toString n
  | Json.arr xs => "[" ++ pyReprList xs ++ "]"
  | Json.obj kvs => "\x7b" ++ pyReprFields kvs ++ "\x7d"

/-- Comma-separated rendering of the elements of a JSON list. -/
def pyReprList : List Json → String
  | [] => ""
  | [x] => pyRepr x
  | x :: y :: xs => pyRepr x ++ ", " ++ pyReprList (y :: xs)

/-- Comma-separated rendering of the fields of a JSON object. -/
def pyReprFields : List (String × Json) → String
  | [] => ""
  | [kv] => "\x27" ++ kv.1 ++ "\x27: " ++ pyRepr kv.2
  | kv :: kv2 :: kvs =>
      "\x27" ++ kv.1 ++ "\x27: " ++ pyRepr kv.2 ++ ", " ++ pyReprFields (kv2 :: kvs)
end

/-- Rendering of a whole parsed response object (`f"... \x7bdata\x7d"` in
the script, where `data` is a dict). -/
def pyReprObj (data : List (String × Json)) : String :=
  "\x7b" ++ pyReprFields data ++ "\x7d"

/-- Python `v == "0"` for `v` the result of a `dict.get`: true exactly when
the key was present with the string value "0". -/
def isCodeZero (v : Option Json) : Bool :=
  match v with
  | some (Json.str s) => s == "0"
  | _ => false

/-! ## Signature construction (timelapse.py lines 36-42 and line 80) -/

/-- Signature built by `get_imou_access_token` (lines 38-40):
`nonce = time_ms; sign_string = f"\x7btime_ms\x7d\x7bnonce\x7d\x7bIMOU_APP_SECRET\x7d";
hashlib.md5(sign_string.encode(...)).hexdigest()`. -/
def sign_token (md5hex : String → String) (time_ms app_secret : String) : String :=
  let nonce := time_ms
  md5hex (time_ms ++ nonce ++ app_secret)

/-- Signature built inline by `get_device_snapshot` (line 80):
`hashlib.md5(f"\x7btime_ms\x7d\x7btime_ms\x7d\x7bIMOU_APP_SECRET\x7d".encode()).hexdigest()`. -/
def sign_snapshot (md5hex : String → String) (time_ms app_secret : String) : String :=
  md5hex (time_ms ++ time_ms ++ app_secret)

/-! ## Filename generation (timelapse.py lines 201-202) -/

/-- The fields of `datetime.now()` that the format string reads. -/
structure PyDateTime where
  year : Nat
  month : Nat
  day : Nat
  hour : Nat
  minute : Nat

/-- Zero-padding to two digits, as `%m`, `%d`, `%H`, `%M` do. -/
def pad2 (n : Nat) : String :=
  if n < 10 then "0" ++ toString n else toString n

/-- Zero-padding to four digits, as `%Y` does. -/
def pad4 (n : Nat) : String :=
  if n < 10 then "000" ++ toString n
  else if n < 100 then "00" ++ toString n
  else if n < 1000 then "0" ++ toString n
  else toString n

/-- `datetime.now().strftime("%Y-%m-%d_%H-%M")` (line 201). -/
def strftime_YmdHM (dt : PyDateTime) : String :=
  pad4 dt.year ++ "-" ++ pad2 dt.month ++ "-" ++ pad2 dt.day ++ "_" ++
    pad2 dt.hour ++ "-" ++ pad2 dt.minute

/-- `filename = f"timelapse_\x7btimestamp\x7d.jpg"` (line 202). -/
def make_filename (dt : PyDateTime) : String :=
  "timelapse_" ++ strftime_YmdHM dt ++ ".jpg"

/-! ## Token acquisition (timelapse.py lines 21-68) -/

/-- The success test at line 59:
`data.get("code") == "0" or data.get("result", \x7b\x7d).get("code") == "0"`,
with the `AttributeError` Python raises when `data["result"]` is present but
not a dict. -/
def token_cond (data : List (String × Json)) : Except StepError Bool :=
  if isCodeZero (pyDictGet data "code") then Except.ok true
  else
    match pyDictGet data "result" with
    | none => Except.ok false
    | some (Json.obj kvs) => Except.ok (isCodeZero (pyDictGet kvs "code"))
    | some _ => Except.error StepError.attrError

/-- `get_imou_access_token`, lines 53-68, over the parsed response `data`
(the network call and JSON parsing are abstracted away: the parsed response
object is the input).  Returns the token value the Python function returns
(any JSON value), or the error it raises. -/
def get_imou_access_token (data : List (String × Json)) : Except StepError Json :=
  let elif_branch : Except StepError Json :=
    match pyDictGet data "accessToken" with
    | some v => Except.ok v
    | none =>
        Except.error (StepError.exn
          ("Token nebyl nalezen v odpovědi: " ++ pyReprObj data))
  match token_cond data with
  | Except.error e => Except.error e
  | Except.ok true =>
      match pyDictGet data "result" with
      | none => elif_branch
      | some r =>
          match pyContains r "accessToken" with
          | Except.error e => Except.error e
          | Except.ok true => pySubscr r "accessToken"
          | Except.ok false => elif_branch
  | Except.ok false =>
      Except.error (StepError.exn
        ("Chyba při získávání tokenu: " ++ pyReprObj data))

/-! ## Snapshot retrieval (timelapse.py lines 70-122) -/

/-- Result of `requests.get(url, timeout=30)`: either a timeout (which the
library raises as an exception) or a response with a status code and a raw
byte body. -/
inductive HttpGetResult where
  | timeout
  | response (status : Nat) (body : List Nat)

/-- Lines 114-120: `requests.get(image_url, timeout=30)` followed by
`raise_for_status()` and `return img_response.content`.  `image_url` is
whatever JSON value the normalization produced; `requests.get` raises for
any non-string URL (including `None`).  `raise_for_status` raises exactly
for status codes in 400-599. -/
def download_image (image_url : Json)
    (http_get : String → Nat → HttpGetResult) : Except StepError (List Nat) :=
  match image_url with
  | Json.str u =>
      match http_get u 30 with
      | HttpGetResult.timeout => Except.error StepError.timeoutError
      | HttpGetResult.response st body =>
          if 400 ≤ st ∧ st < 600 then Except.error (StepError.httpStatusError st)
          else Except.ok body
  | _ => Except.error StepError.requestError

/-- The success test at line 103:
`data.get("code") == "0" or (data.get("result") and data["result"].get("code") == "0")`,
with Python truthiness of `data.get("result")` and the `AttributeError` on a
truthy non-dict result. -/
def snapshot_cond (data : List (String × Json)) : Except StepError Bool :=
  if isCodeZero (pyDictGet data "code") then Except.ok true
  else
    match pyDictGet data "result" with
    | none => Except.ok false
    | some r =>
        if pyTruthy r then
          match r with
          | Json.obj kvs => Except.ok (isCodeZero (pyDictGet kvs "code"))
          | _ => Except.error StepError.attrError
        else Except.ok false

/-- `get_device_snapshot`, lines 96-122, over the parsed response `data`.
The POST itself is abstracted (the parsed response is the input; the
`access_token` argument only feeds the request parameters); the image GET
is the function parameter `http_get`. -/
def get_device_snapshot (access_token : Json) (data : List (String × Json))
    (http_get : String → Nat → HttpGetResult) : Except StepError (List Nat) :=
  match snapshot_cond data with
  | Except.error e => Except.error e
  | Except.ok false =>
      Except.error (StepError.exn
        ("Chyba při získávání snímku: " ++ pyReprObj data))
  | Except.ok true =>
      let no_url : Except StepError (List Nat) :=
        Except.error (StepError.exn
          ("URL snímku nebyla nalezena v odpovědi: " ++ pyReprObj data))
      let result : Json :=
        match pyDictGet data "result" with
        | some r => r
        | none => Json.obj data
      match pyContains result "url" with
      | Except.error e => Except.error e
      | Except.ok true =>
          match pySubscr result "url" with
          | Except.error e => Except.error e
          | Except.ok image_url => download_image image_url http_get
      | Except.ok false =>
          match pyContains result "snapshots" with
          | Except.error e => Except.error e
          | Except.ok false => no_url
          | Except.ok true =>
              match pySubscr result "snapshots" with
              | Except.error e => Except.error e
              | Except.ok snaps =>
                  match pyLen snaps with
                  | Except.error e => Except.error e
                  | Except.ok n =>
                      if n > 0 then
                        match pyIndex0 snaps with
                        | Except.error e => Except.error e
                        | Except.ok elem =>
                            match elem with
                            | Json.obj kvs =>
                                download_image
                                  (match pyDictGet kvs "url" with
                                   | some v => v
                                   | none => Json.null) http_get
                            | _ => Except.error StepError.attrError
                      else no_url

/-! ## Storage upload (timelapse.py lines 124-166) -/

/-- `upload_to_google_drive`, lines 124-166, with the two external effects
abstracted as booleans: `credsOk` is whether credential parsing and client
construction (lines 128-136, before the temporary file is written) succeed,
and `uploadOk` is whether the Drive `create(...).execute()` call (line 160)
succeeds.  The second component of the result is the state of the temporary
file when the function returns or raises: `some (path, contents)` when a
file remains on disk, `none` when no temporary file remains.  The file is
written at lines 139-141 and removed at line 166, after the upload. -/
def upload_to_google_drive (image_data : List Nat) (filename : String)
    (credsOk uploadOk : Bool) : Except StepError Unit × Option (String × List Nat) :=
  if credsOk then
    let temp_file := "/tmp/" ++ filename
    if uploadOk then
      (Except.ok (), none)
    else
      (Except.error StepError.uploadError, some (temp_file, image_data))
  else
    (Except.error StepError.credsError, none)

/-! ## The pipeline (timelapse.py lines 168-220) -/

/-- `main`, lines 188-206: token, then snapshot, then filename, then
upload, each aborting the run when it raises.  The print of
`access_token[:20]` at line 191 raises a `TypeError` when the token value
is not sliceable (not a string or list).  The second component is the final
state of the temporary file, as in `upload_to_google_drive`. -/
def main_run (tokenResp snapResp : List (String × Json))
    (http_get : String → Nat → HttpGetResult) (now : PyDateTime)
    (credsOk uploadOk : Bool) : Except StepError Unit × Option (String × List Nat) :=
  match get_imou_access_token tokenResp with
  | Except.error e => (Except.error e, none)
  | Except.ok access_token =>
      match access_token with
      | Json.str _ | Json.arr _ =>
          match get_device_snapshot access_token snapResp http_get with
          | Except.error e => (Except.error e, none)
          | Except.ok image_data =>
              upload_to_google_drive image_data (make_filename now) credsOk uploadOk
      | _ => (Except.error StepError.typeError, none)

/-! ## Claims -/

/-- C2: for every timestamp string `t` and app secret `s`, the signature
computed by the token-acquisition step equals MD5 of `t ++ t ++ s` (the
nonce is set equal to the timestamp), and the computation is deterministic:
equal inputs give equal digests. -/
theorem token_signature_formula_deterministic
    (md5hex : String → String) (t s : String) :
    sign_token md5hex t s = md5hex (t ++ t ++ s) ∧
    (∀ t2 s2, t = t2 → s = s2 → sign_token md5hex t s = sign_token md5hex t2 s2) := by
  refine ⟨rfl, ?_⟩
  intro t2 s2 ht hs
  rw [ht, hs]

/-- Witness for C2 at a concrete timestamp, secret and hash function. -/
theorem token_signature_formula_deterministic_witness :
    sign_token (fun s => s) "1714572420000" "secret" =
      (fun s : String => s) ("1714572420000" ++ "1714572420000" ++ "secret") ∧
    sign_token (fun s => s) "1714572420000" "secret" =
      sign_token (fun s => s) "1714572420000" "secret" :=
  ⟨(token_signature_formula_deterministic (fun s => s) "1714572420000" "secret").1,
   (token_signature_formula_deterministic (fun s => s) "1714572420000" "secret").2
     "1714572420000" "secret" rfl rfl⟩

/-- C10: the signature built inline in `get_device_snapshot` and the one
built in `get_imou_access_token` are the same function of the timestamp and
the app secret. -/
theorem snapshot_signature_equals_token_signature
    (md5hex : String → String) (t s : String) :
    sign_snapshot md5hex t s = sign_token md5hex t s := rfl

/-- C6: the upload filename is derived deterministically from the clock as
`timelapse_<year>-<month>-<day>_<hour>-<minute>.jpg` with zero-padded
fields, and at the fixed clock value 2024-05-01 14:07 it is exactly
"timelapse_2024-05-01_14-07.jpg". -/
theorem filename_generation :
    (∀ dt : PyDateTime,
      make_filename dt = "timelapse_" ++
        (pad4 dt.year ++ "-" ++ pad2 dt.month ++ "-" ++ pad2 dt.day ++ "_" ++
          pad2 dt.hour ++ "-" ++ pad2 dt.minute) ++ ".jpg") ∧
    make_filename ⟨2024, 5, 1, 14, 7⟩ = "timelapse_2024-05-01_14-07.jpg" := by
  exact ⟨fun dt => rfl, by decide⟩

/-- C3: a flat token response and a nested one carrying the same token
value make `get_imou_access_token` return that same token. -/
theorem token_response_normalization (x : String) :
    get_imou_access_token [("accessToken", Json.str x), ("code", Json.str "0")] =
      Except.ok (Json.str x) ∧
    get_imou_access_token
        [("result", Json.obj [("accessToken", Json.str x), ("code", Json.str "0")])] =
      Except.ok (Json.str x) := by
  exact ⟨rfl, rfl⟩

/-- C5: a snapshot response with a direct `result.url` and one with
`result.snapshots[0].url` carrying the same URL make `get_device_snapshot`
behave identically (in particular they extract the identical image URL and
hand it to the same HTTP GET). -/
theorem snapshot_url_normalization (u : String) (tok : Json)
    (http_get : String → Nat → HttpGetResult) :
    get_device_snapshot tok
        [("result", Json.obj [("url", Json.str u), ("code", Json.str "0")])] http_get =
    get_device_snapshot tok
        [("result", Json.obj [("snapshots", Json.arr [Json.obj [("url", Json.str u)]]),
            ("code", Json.str "0")])] http_get := by
  rfl

/-- C1 counterexample: with credentials fine and the Drive upload call
failing, `upload_to_google_drive` raises and the temporary file it wrote is
still on disk — the cleanup is not performed on that exit path. -/
theorem temp_file_remains_after_failed_upload :
    (upload_to_google_drive [255, 216] "timelapse_2024-05-01_14-07.jpg" true false).2 =
      some ("/tmp/timelapse_2024-05-01_14-07.jpg", [255, 216]) ∧
    (upload_to_google_drive [255, 216] "timelapse_2024-05-01_14-07.jpg" true false).1 =
      Except.error StepError.uploadError := by
  exact ⟨rfl, rfl⟩

/-- C1 amended: the temporary file is removed on the successful exit path
only; after `upload_to_google_drive` returns or raises, a temporary file
remains on disk exactly when the file was written (credentials parsed fine)
and the upload call then failed. -/
theorem temp_file_cleanup_only_on_success
    (image_data : List Nat) (filename : String) (credsOk uploadOk : Bool) :
    (upload_to_google_drive image_data filename credsOk uploadOk).2 =
      (if credsOk && !uploadOk then some ("/tmp/" ++ filename, image_data) else none) := by
  cases credsOk <;> cases uploadOk <;> rfl

/-- C7 counterexample: a download that answers with the non-2xx status 304
makes `get_device_snapshot` return the body instead of raising —
`raise_for_status` only raises for 4xx/5xx statuses, so "non-2xx raises" is
not what the code does. -/
theorem non2xx_download_can_succeed :
    get_device_snapshot (Json.str "tok")
        [("result", Json.obj [("url", Json.str "http://img.example/x.jpg"),
            ("code", Json.str "0")])]
        (fun _ _ => HttpGetResult.response 304 [1, 2, 3]) = Except.ok [1, 2, 3] := by
  rfl

/-- C7 amended: after extracting the image URL, `get_device_snapshot`
performs the HTTP GET on exactly that URL with timeout 30; a 2xx response
returns the raw body, a 4xx/5xx response raises, and a timeout raises.
(Statuses outside 400-599 — including all 2xx — return the body.) -/
theorem download_raises_iff_4xx_5xx_or_timeout
    (u : String) (tok : Json) (st : Nat) (body : List Nat) :
    (200 ≤ st ∧ st < 300 →
      get_device_snapshot tok
          [("result", Json.obj [("url", Json.str u), ("code", Json.str "0")])]
          (fun v t => if v == u && t == 30 then HttpGetResult.response st body
                      else HttpGetResult.timeout) = Except.ok body) ∧
    (400 ≤ st ∧ st < 600 →
      get_device_snapshot tok
          [("result", Json.obj [("url", Json.str u), ("code", Json.str "0")])]
          (fun v t => if v == u && t == 30 then HttpGetResult.response st body
                      else HttpGetResult.timeout) =
        Except.error (StepError.httpStatusError st)) ∧
    get_device_snapshot tok
        [("result", Json.obj [("url", Json.str u), ("code", Json.str "0")])]
        (fun _ _ => HttpGetResult.timeout) = Except.error StepError.timeoutError := by
  have hstep : ∀ hg, get_device_snapshot tok
      [("result", Json.obj [("url", Json.str u), ("code", Json.str "0")])] hg =
      download_image (Json.str u) hg := fun hg => rfl
  refine ⟨?_, ?_, hstep _⟩
  · intro h
    have hne : ¬(400 ≤ st ∧ st < 600) := by omega
    rw [hstep]
    simp [download_image, hne]
  · intro h
    rw [hstep]
    simp [download_image, h]

/-- Witness for C7 (amended) at status 200, status 404, and a timeout. -/
theorem download_raises_iff_4xx_5xx_or_timeout_witness :
    get_device_snapshot (Json.str "tok")
        [("result", Json.obj [("url", Json.str "http://a/b.jpg"), ("code", Json.str "0")])]
        (fun v t => if v == "http://a/b.jpg" && t == 30 then HttpGetResult.response 200 [9]
                    else HttpGetResult.timeout) = Except.ok [9] ∧
    get_device_snapshot (Json.str "tok")
        [("result", Json.obj [("url", Json.str "http://a/b.jpg"), ("code", Json.str "0")])]
        (fun v t => if v == "http://a/b.jpg" && t == 30 then HttpGetResult.response 404 [9]
                    else HttpGetResult.timeout) =
      Except.error (StepError.httpStatusError 404) ∧
    get_device_snapshot (Json.str "tok")
        [("result", Json.obj [("url", Json.str "http://a/b.jpg"), ("code", Json.str "0")])]
        (fun _ _ => HttpGetResult.timeout) = Except.error StepError.timeoutError := by
  refine ⟨(download_raises_iff_4xx_5xx_or_timeout "http://a/b.jpg" (Json.str "tok") 200 [9]).1
      (by omega),
    (download_raises_iff_4xx_5xx_or_timeout "http://a/b.jpg" (Json.str "tok") 404 [9]).2.1
      (by omega),
    (download_raises_iff_4xx_5xx_or_timeout "http://a/b.jpg" (Json.str "tok") 404 [9]).2.2⟩

/-! ## Helper lemmas for the success-test conditions -/

/-- When `dict.get` finds nothing under `k`, the key-membership test is
false. -/
lemma pyAny_key_eq_false {kvs : List (String × Json)} {k : String}
    (h : pyDictGet kvs k = none) :
    (kvs.any (fun kv => kv.1 == k)) = false := by
  rw [pyDictGet] at h
  have hf : List.find? (fun kv => kv.1 == k) kvs = none := by
    cases hf : List.find? (fun kv => kv.1 == k) kvs with
    | none => rfl
    | some kv => rw [hf] at h; exact absurd h (by simp)
  rw [List.any_eq_false]
  intro kv hkv
  exact List.find?_eq_none.mp hf kv hkv

/-- Both code checks of line 59 / line 103 failing: no top-level code "0",
and the nested result (when present; it must be a dict for the check to
evaluate) carries no code "0" either. -/
def code_checks_fail (data : List (String × Json)) : Bool :=
  !isCodeZero (pyDictGet data "code") &&
    (match pyDictGet data "result" with
     | none => true
     | some (Json.obj kvs) => !isCodeZero (pyDictGet kvs "code")
     | some _ => false)

/-- Failing checks make the token-step success test false. -/
lemma token_cond_false_of_checks_fail {data : List (String × Json)}
    (h : code_checks_fail data = true) : token_cond data = Except.ok false := by
  unfold code_checks_fail at h
  rw [Bool.and_eq_true] at h
  obtain ⟨h1, h2⟩ := h
  rw [Bool.not_eq_true'] at h1
  unfold token_cond
  rw [if_neg (by simp [h1])]
  cases hr : pyDictGet data "result" with
  | none => rfl
  | some j =>
      rw [hr] at h2
      cases j <;> simp_all

/-- Failing checks make the snapshot-step success test false. -/
lemma snapshot_cond_false_of_checks_fail {data : List (String × Json)}
    (h : code_checks_fail data = true) : snapshot_cond data = Except.ok false := by
  unfold code_checks_fail at h
  rw [Bool.and_eq_true] at h
  obtain ⟨h1, h2⟩ := h
  rw [Bool.not_eq_true'] at h1
  unfold snapshot_cond
  rw [if_neg (by simp [h1])]
  cases hr : pyDictGet data "result" with
  | none => rfl
  | some j =>
      rw [hr] at h2
      cases j <;> simp_all [pyTruthy]

/-- C4: a response in which every code check fails (top-level code not "0",
nested result code not "0") makes the token step raise, aborting the run
before the snapshot step, and makes the snapshot step raise, aborting the
run before the upload step. -/
theorem nonzero_code_aborts_pipeline (data : List (String × Json))
    (h : code_checks_fail data = true) :
    get_imou_access_token data =
      Except.error (StepError.exn ("Chyba při získávání tokenu: " ++ pyReprObj data)) ∧
    (∀ snapResp http_get now credsOk uploadOk,
      main_run data snapResp http_get now credsOk uploadOk =
        (Except.error (StepError.exn ("Chyba při získávání tokenu: " ++ pyReprObj data)),
          none)) ∧
    (∀ tok http_get,
      get_device_snapshot tok data http_get =
        Except.error (StepError.exn ("Chyba při získávání snímku: " ++ pyReprObj data))) ∧
    (∀ tokenResp t http_get now credsOk uploadOk,
      get_imou_access_token tokenResp = Except.ok (Json.str t) →
      main_run tokenResp data http_get now credsOk uploadOk =
        (Except.error (StepError.exn ("Chyba při získávání snímku: " ++ pyReprObj data)),
          none)) := by
  have ht : token_cond data = Except.ok false := token_cond_false_of_checks_fail h
  have hs : snapshot_cond data = Except.ok false := snapshot_cond_false_of_checks_fail h
  have h1 : get_imou_access_token data =
      Except.error (StepError.exn ("Chyba při získávání tokenu: " ++ pyReprObj data)) := by
    simp [get_imou_access_token, ht]
  have h3 : ∀ tok http_get,
      get_device_snapshot tok data http_get =
        Except.error (StepError.exn ("Chyba při získávání snímku: " ++ pyReprObj data)) := by
    intro tok http_get
    simp [get_device_snapshot, hs]
  refine ⟨h1, ?_, h3, ?_⟩
  · intro snapResp http_get now credsOk uploadOk
    simp [main_run, h1]
  · intro tokenResp t http_get now credsOk uploadOk htr
    simp [main_run, htr, h3]

/-- Witness for C4: a flat response with code "1" makes both steps raise
the run-aborting error with that response embedded, and the pipeline stops
before the following step. -/
theorem nonzero_code_aborts_pipeline_witness :
    get_imou_access_token [("code", Json.str "1")] =
      Except.error (StepError.exn
        ("Chyba při získávání tokenu: " ++ pyReprObj [("code", Json.str "1")])) ∧
    main_run [("code", Json.str "1")] [("code", Json.str "0")]
        (fun _ _ => HttpGetResult.timeout) ⟨2024, 5, 1, 14, 7⟩ true true =
      (Except.error (StepError.exn
        ("Chyba při získávání tokenu: " ++ pyReprObj [("code", Json.str "1")])), none) ∧
    get_device_snapshot (Json.str "T") [("code", Json.str "1")]
        (fun _ _ => HttpGetResult.timeout) =
      Except.error (StepError.exn
        ("Chyba při získávání snímku: " ++ pyReprObj [("code", Json.str "1")])) ∧
    main_run [("accessToken", Json.str "T"), ("code", Json.str "0")]
        [("code", Json.str "1")] (fun _ _ => HttpGetResult.timeout)
        ⟨2024, 5, 1, 14, 7⟩ true true =
      (Except.error (StepError.exn
        ("Chyba při získávání snímku: " ++ pyReprObj [("code", Json.str "1")])), none) :=
  ⟨(nonzero_code_aborts_pipeline [("code", Json.str "1")] rfl).1,
   (nonzero_code_aborts_pipeline [("code", Json.str "1")] rfl).2.1 _ _ _ _ _,
   (nonzero_code_aborts_pipeline [("code", Json.str "1")] rfl).2.2.1 _ _,
   (nonzero_code_aborts_pipeline [("code", Json.str "1")] rfl).2.2.2
     [("accessToken", Json.str "T"), ("code", Json.str "0")] "T" _ _ _ _ rfl⟩

/-- C8: when the token-endpoint response passes the code check but carries
an access token in neither shape, `get_imou_access_token` raises with the
full raw response embedded in the message, and when the code check fails it
likewise raises with the full raw response embedded. -/
theorem token_error_embeds_raw_response (data : List (String × Json)) :
    (token_cond data = Except.ok true →
     (pyDictGet data "result" = none ∨
       ∃ kvs, pyDictGet data "result" = some (Json.obj kvs)) →
     (∀ kvs, pyDictGet data "result" = some (Json.obj kvs) →
       pyDictGet kvs "accessToken" = none) →
     pyDictGet data "accessToken" = none →
     get_imou_access_token data =
       Except.error (StepError.exn
         ("Token nebyl nalezen v odpovědi: " ++ pyReprObj data))) ∧
    (token_cond data = Except.ok false →
     get_imou_access_token data =
       Except.error (StepError.exn
         ("Chyba při získávání tokenu: " ++ pyReprObj data))) := by
  constructor
  · intro hc hshape hkvs htop
    rcases hshape with hr | ⟨kvs, hr⟩
    · simp [get_imou_access_token, hc, hr, htop]
    · have hany := pyAny_key_eq_false (hkvs kvs hr)
      simp [get_imou_access_token, hc, hr, pyContains, hany, htop]
  · intro hc
    simp [get_imou_access_token, hc]

/-- Witness for C8: a response with code "0" and no token raises the
token-not-found error with the response embedded; a response with code "1"
raises the code-failure error with the response embedded. -/
theorem token_error_embeds_raw_response_witness :
    get_imou_access_token [("code", Json.str "0")] =
      Except.error (StepError.exn
        ("Token nebyl nalezen v odpovědi: " ++ pyReprObj [("code", Json.str "0")])) ∧
    get_imou_access_token [("code", Json.str "7")] =
      Except.error (StepError.exn
        ("Chyba při získávání tokenu: " ++ pyReprObj [("code", Json.str "7")])) :=
  ⟨(token_error_embeds_raw_response [("code", Json.str "0")]).1 rfl (Or.inl rfl)
     (fun kvs h => by exact absurd h (by simp [pyDictGet])) rfl,
   (token_error_embeds_raw_response [("code", Json.str "7")]).2 rfl⟩

/-- C9: the success test is a disjunction of the two shapes — a top-level
code "0" makes both steps take the success branch whatever the nested
result code is, and the failure branch is taken only when the top-level
check fails and every nested result-object code check fails too. -/
theorem success_test_is_disjunction_of_shapes (data : List (String × Json)) :
    (isCodeZero (pyDictGet data "code") = true →
      token_cond data = Except.ok true ∧ snapshot_cond data = Except.ok true) ∧
    (token_cond data = Except.ok false →
      isCodeZero (pyDictGet data "code") = false ∧
      ∀ kvs, pyDictGet data "result" = some (Json.obj kvs) →
        isCodeZero (pyDictGet kvs "code") = false) ∧
    (snapshot_cond data = Except.ok false →
      isCodeZero (pyDictGet data "code") = false ∧
      ∀ kvs, pyDictGet data "result" = some (Json.obj kvs) →
        isCodeZero (pyDictGet kvs "code") = false) := by
  refine ⟨?_, ?_, ?_⟩
  · intro h
    exact ⟨by simp [token_cond, h], by simp [snapshot_cond, h]⟩
  · intro h
    by_cases hc : isCodeZero (pyDictGet data "code") = true
    · simp [token_cond, hc] at h
    · have hc0 : isCodeZero (pyDictGet data "code") = false := by
        simpa using hc
      refine ⟨hc0, ?_⟩
      intro kvs hkvs
      rw [token_cond, if_neg (by simp [hc0]), hkvs] at h
      simpa using h
  · intro h
    by_cases hc : isCodeZero (pyDictGet data "code") = true
    · simp [snapshot_cond, hc] at h
    · have hc0 : isCodeZero (pyDictGet data "code") = false := by
        simpa using hc
      refine ⟨hc0, ?_⟩
      intro kvs hkvs
      rw [snapshot_cond, if_neg (by simp [hc0]), hkvs] at h
      by_cases htr : pyTruthy (Json.obj kvs) = true
      · simpa [htr] using h
      · have : kvs = [] := by
          simpa [pyTruthy, List.isEmpty_iff] using htr
        subst this
        rfl

/-- Witness for C9: with top-level code "0" and a nested result code "1",
both success tests still pass; with a lone top-level code "1", the
token-step failure branch indeed has a failing top-level check. -/
theorem success_test_is_disjunction_of_shapes_witness :
    (token_cond [("code", Json.str "0"), ("result", Json.obj [("code", Json.str "1")])] =
        Except.ok true ∧
     snapshot_cond [("code", Json.str "0"), ("result", Json.obj [("code", Json.str "1")])] =
        Except.ok true) ∧
    (isCodeZero (pyDictGet [("code", Json.str "1")] "code") = false ∧
     ∀ kvs, pyDictGet [("code", Json.str "1")] "result" = some (Json.obj kvs) →
       isCodeZero (pyDictGet kvs "code") = false) :=
  ⟨(success_test_is_disjunction_of_shapes
      [("code", Json.str "0"), ("result", Json.obj [("code", Json.str "1")])]).1 rfl,
   (success_test_is_disjunction_of_shapes [("code", Json.str "1")]).2.1 rfl⟩
